import Mathlib

/-!
# Verification of the edge-function dev handler

A shallow embedding of `packages/node/src/edge-functions/edge-handler.ts`:
the compile step (`compileUserCode`), the sandbox-runtime lifecycle
(`createEdgeRuntime`), the request proxy (`createEdgeEventHandler` /
`handleRequest`), route-label derivation (`extractUrlPath`), request
serialization with a base64-encoded body (`serializeRequest`), and the
module-load node-version probe (`nodeVersionMajor`).

External collaborators (esbuild, edge-runtime, node-fetch's text decoding,
the wasm plugin) are modelled at their interface boundary as explicit
function parameters; nothing of the orchestration logic itself is stubbed.
Byte strings are `List Nat` with every element below 256.
-/

namespace EdgeHandler

/-- Embeds the module-level probe
`process.version.match(/^v(\d+)\.\d+/)?.[1]`: the capture group is the
maximal run of decimal digits after a leading `v`, and the match requires
a dot followed by at least one further digit. -/
def nodeVersionMajor (version : String) : Option String :=
  match version.data with
  | 'v' :: rest =>
    let digits := rest.takeWhile Char.isDigit
    let after := rest.dropWhile Char.isDigit
    if digits = [] then none
    else
      match after with
      | '.' :: d :: _ => if d.isDigit then some (String.mk digits) else none
      | _ => none
  | _ => none

/-- Embeds the module initialisation of `edge-handler.ts`: compute
`NODE_VERSION_MAJOR` and `NODE_VERSION_IDENTIFIER`, and throw when the
major version cannot be determined.  On success it returns the
`NODE_VERSION_IDENTIFIER` string `node<major>`. -/
def nodeModuleInit (version : String) : Except String String :=
  match nodeVersionMajor version with
  | some major => Except.ok ("node" ++ major)
  | none =>
    Except.error
      ("Unable to determine current node version: process.version=" ++ version)

/-! ## Base64 (node `Buffer.prototype.toString('base64')`) -/

/-- The standard base64 alphabet, as used by node's `Buffer` base64
encoding. -/
def base64Alphabet : List Char :=
  ['A', 'B', 'C', 'D', 'E', 'F', 'G', 'H', 'I', 'J', 'K', 'L', 'M',
   'N', 'O', 'P', 'Q', 'R', 'S', 'T', 'U', 'V', 'W', 'X', 'Y', 'Z',
   'a', 'b', 'c', 'd', 'e', 'f', 'g', 'h', 'i', 'j', 'k', 'l', 'm',
   'n', 'o', 'p', 'q', 'r', 's', 't', 'u', 'v', 'w', 'x', 'y', 'z',
   '0', '1', '2', '3', '4', '5', '6', '7', '8', '9', '+', '/']

/-- The alphabet character for a sextet value. -/
def sextetChar (n : Nat) : Char :=
  base64Alphabet.getD n 'A'

/-- The sextet value of an alphabet character, `none` for characters
outside the alphabet (in particular for the padding `=`). -/
def charSextet (c : Char) : Option Nat :=
  base64Alphabet.indexOf? c

/-- Base64-encode a byte sequence, chunkwise by three bytes, with `=`
padding on the final partial chunk. -/
def encodeChunks : List Nat → List Char
  | [] => []
  | [b0] =>
    [sextetChar (b0 / 4), sextetChar (b0 % 4 * 16), '=', '=']
  | [b0, b1] =>
    [sextetChar (b0 / 4), sextetChar (b0 % 4 * 16 + b1 / 16),
     sextetChar (b1 % 16 * 4), '=']
  | b0 :: b1 :: b2 :: rest =>
    sextetChar (b0 / 4) :: sextetChar (b0 % 4 * 16 + b1 / 16) ::
    sextetChar (b1 % 16 * 4 + b2 / 64) :: sextetChar (b2 % 64) ::
    encodeChunks rest

/-- `bodyBuffer.toString('base64')`. -/
def base64Encode (bs : List Nat) : String :=
  String.mk (encodeChunks bs)

/-- Base64 decoding, four characters at a time; fails on malformed
input. -/
def decodeChunks : List Char → Option (List Nat)
  | [] => some []
  | c0 :: c1 :: c2 :: c3 :: rest =>
    if c2 = '=' ∧ c3 = '=' ∧ rest = [] then
      match charSextet c0, charSextet c1 with
      | some s0, some s1 => some [s0 * 4 + s1 / 16]
      | _, _ => none
    else if c3 = '=' ∧ rest = [] then
      match charSextet c0, charSextet c1, charSextet c2 with
      | some s0, some s1, some s2 =>
        some [s0 * 4 + s1 / 16, s1 % 16 * 16 + s2 / 4]
      | _, _, _ => none
    else
      match charSextet c0, charSextet c1, charSextet c2, charSextet c3,
          decodeChunks rest with
      | some s0, some s1, some s2, some s3, some ds =>
        some ((s0 * 4 + s1 / 16) :: (s1 % 16 * 16 + s2 / 4) ::
              (s2 % 4 * 64 + s3) :: ds)
      | _, _, _, _, _ => none
  | _ => none

/-- Base64-decode a string. -/
def base64Decode (s : String) : Option (List Nat) :=
  decodeChunks s.data

/-! ## Route-label derivation -/

/-- JavaScript `relativePath.split('.')` for the one-character separator
`'.'`, on the character list of the string.  `split` on the empty string
yields `[""]`, matched by the `[[]]` base case. -/
def splitOnDot : List Char → List (List Char)
  | [] => [[]]
  | c :: rest =>
    let r := splitOnDot rest
    if c = '.' then [] :: r
    else
      match r with
      | [] => [[c]]
      | g :: gs => (c :: g) :: gs

/-- Rejoining helper: the tail groups each preceded by a dot. -/
def joinDotPre : List (List Char) → List Char
  | [] => []
  | g :: gs => '.' :: (g ++ joinDotPre gs)

/-- Rejoin groups with dot separators (list-level `parts.join('.')`). -/
def joinDot : List (List Char) → List Char
  | [] => []
  | g :: gs => g ++ joinDotPre gs

/-- Embeds `extractUrlPath`: split the relative path on `.`; a single
part is returned unchanged, otherwise the last part is popped and the
rest rejoined with `.` (turns `api/some.func.js` into `api/some.func`). -/
def extractUrlPath (entrypointRelativePath : String) : String :=
  let parts := (splitOnDot entrypointRelativePath.data).map String.mk
  if parts.length == 1 then entrypointRelativePath
  else String.intercalate "." parts.dropLast

/-! ## Data model -/

/-- The wasm-asset set recorded by the bundler plugin during one
compilation.  Modelled from the spec: `createEdgeWasmPlugin` lives in
`edge-wasm-plugin.ts` (not part of the sources verified here); the spec
describes it as a mapping from import-derived identifiers to bindings,
resolved once into global bindings for the sandbox context. -/
structure WasmAssets where
  bindings : List (String × String)
  deriving Repr, DecidableEq

/-- `{ userCode, wasmAssets }`, the value returned by a successful
`compileUserCode`. -/
structure CompiledProgram where
  userCode : String
  wasmAssets : WasmAssets
  deriving Repr, DecidableEq

/-- The esbuild options object built inside `compileUserCode`. -/
structure BuildOptions where
  platform : String
  target : String
  sourcemap : String
  legalComments : String
  bundle : Bool
  entryPoints : List String
  write : Bool
  format : String
  deriving Repr, DecidableEq

/-- The options `compileUserCode` passes to `esbuild.build`, for a given
`NODE_VERSION_IDENTIFIER` target and entrypoint. -/
def buildOptionsFor (target entrypointFullPath : String) : BuildOptions :=
  { platform := "browser"
    target := target
    sourcemap := "inline"
    legalComments := "none"
    bundle := true
    entryPoints := [entrypointFullPath]
    write := false
    format := "cjs" }

/-- An inbound request as consumed from `IncomingMessage`: url, method,
headers, and the fully drained body bytes. -/
structure IncomingRequest where
  url : String
  method : String
  headers : List (String × String)
  bodyBytes : List Nat
  deriving Repr, DecidableEq

/-- The JSON wire payload built by `serializeRequest`; `body` is the
base64 string. -/
structure SerializedRequest where
  url : String
  method : String
  headers : List (String × String)
  body : String
  deriving Repr, DecidableEq

/-- The sandbox server's HTTP response at the wire level: status, raw
multi-value headers, body bytes. -/
structure WireResponse where
  status : Nat
  headers : List (String × List String)
  bodyBytes : List Nat
  deriving Repr, DecidableEq

/-- The `VercelProxyResponse` shape returned by the event handler. -/
structure ProxyResponse where
  statusCode : Nat
  headers : List (String × List String)
  body : String
  encoding : String
  deriving Repr, DecidableEq

/-- The sandbox server started by `runServer`: its observable interface
is one response per serialized-request POST. -/
structure SandboxServer where
  respond : SerializedRequest → WireResponse

/-- `headers.get(name)` on a node-fetch header map: the matching values
joined by a comma-space, `none` when the header is absent. -/
def headersGet (headers : List (String × List String)) (name : String) :
    Option String :=
  (headers.lookup name).map (String.intercalate ", ")

/-- Embeds `serializeRequest`: drain the body, base64-encode it, carry
url, method and headers verbatim. -/
def serializeRequest (message : IncomingRequest) : SerializedRequest :=
  { url := message.url
    method := message.method
    headers := message.headers
    body := base64Encode message.bodyBytes }

/-! ## Compiler -/

/-- The log line `Failed to compile user code for edge runtime.`. -/
def compileFailedLog : String :=
  "Failed to compile user code for edge runtime."

/-- The message of the error thrown when esbuild produces no output
files. -/
def noOutputMessage (entrypointRelativePath : String) : String :=
  "Compilation of " ++ entrypointRelativePath ++ " produced no output files."

/-- The single-quote character, written by code point to keep the wrapped
script byte-exact. -/
def singleQuote : String :=
  String.singleton (Char.ofNat 39)

/-- Template-literal segment before the bundle text: strict-mode
prologue and the `user code` banner. -/
def scriptSeg1 : String :=
  "\n      // strict mode\n      \"use strict\";var regeneratorRuntime;\n\n      // user code\n      "

/-- Template-literal segment between the bundle text and the
`IS_MIDDLEWARE` constant. -/
def scriptSeg2 : String :=
  ";\n\n      // request metadata\n      const IS_MIDDLEWARE = "

/-- Template-literal segment between the middleware flag and the quoted
`ENTRYPOINT_LABEL` value. -/
def scriptSeg3 : String :=
  ";\n      const ENTRYPOINT_LABEL = " ++ singleQuote

/-- Template-literal segment between the label and the harness
template. -/
def scriptSeg4 : String :=
  singleQuote ++ ";\n\n      // edge handler\n      "

/-- Template-literal segment after the harness template. -/
def scriptSeg5 : String :=
  "\n    "

/-- JavaScript template interpolation of a boolean. -/
def boolLiteral : Bool → String
  | true => "true"
  | false => "false"

/-- The wrapped script assembled by `compileUserCode` from the bundle
text, the two injected constants, and the harness template. -/
def wrapUserCode (bundleText entrypointRelativePath : String)
    (isMiddleware : Bool) (template : String) : String :=
  scriptSeg1 ++ bundleText ++ scriptSeg2 ++ boolLiteral isMiddleware ++
    scriptSeg3 ++ entrypointRelativePath ++ scriptSeg4 ++ template ++
    scriptSeg5

/-- Embeds `compileUserCode`.  The bundler (esbuild plus the wasm plugin
populated during the build) is an explicit collaborator: it receives the
build options and either throws (`Except.error`) or returns the output
files together with the recorded wasm assets.  Any error — a bundler
throw, or the no-output-files error thrown inside the `try` — is caught
and converted to `none`, with the two logged lines (header, then the
error's message only) returned alongside. -/
def compileUserCode
    (bundler : BuildOptions → Except String (List String × WasmAssets))
    (nodeVersionIdentifier template : String)
    (entrypointFullPath entrypointRelativePath : String)
    (isMiddleware : Bool) : Option CompiledProgram × List String :=
  match bundler (buildOptionsFor nodeVersionIdentifier entrypointFullPath) with
  | Except.error e => (none, [compileFailedLog, e])
  | Except.ok (files, wasmAssets) =>
    match files.head? with
    | none =>
      (none, [compileFailedLog, noOutputMessage entrypointRelativePath])
    | some text =>
      (some { userCode :=
                wrapUserCode text entrypointRelativePath isMiddleware template
              wasmAssets := wasmAssets }, [])

/-! ## Sandbox runtime -/

/-- The value bound to `process.env` inside the sandbox context.  The
source injects the host's own `process.env` object (`process: env:
process.env` by reference), modelled as `live`; the `snapshot`
alternative is the spec-side model of an immutable copy taken at
sandbox-start time, kept for comparison. -/
inductive InjectedEnv where
  | live
  | snapshot (env : List (String × String))
  deriving Repr, DecidableEq

/-- The context extension installed by `createEdgeRuntime`'s `extend`
callback: a stub `module` object, a `process` object exposing only
`env`, and the resolved wasm bindings. -/
structure EdgeContextModel where
  moduleStub : List (String × String)
  processEnv : InjectedEnv
  wasmBindings : List (String × String)
  deriving Repr, DecidableEq

/-- Embeds the `extend` callback of `createEdgeRuntime`: `module` is the
empty stub, `process.env` is the host's live environment object, and the
wasm bindings are merged in. -/
def extendContext (wasmBindings : List (String × String)) : EdgeContextModel :=
  { moduleStub := []
    processEnv := InjectedEnv.live
    wasmBindings := wasmBindings }

/-- The spec's description of the same extension step, with an immutable
environment snapshot taken at sandbox-start time; kept only to compare
against `extendContext`. -/
def extendContextSpec (hostEnvAtStart : List (String × String))
    (wasmBindings : List (String × String)) : EdgeContextModel :=
  { moduleStub := []
    processEnv := InjectedEnv.snapshot hostEnvAtStart
    wasmBindings := wasmBindings }

/-- Reading the injected environment from inside the sandbox, given the
host environment at observation time: the live object reflects the
host's current state, a snapshot does not. -/
def observeEnv (hostEnv : List (String × String)) :
    InjectedEnv → List (String × String)
  | InjectedEnv.live => hostEnv
  | InjectedEnv.snapshot env => env

/-- A JavaScript property assignment `env[key] = value` on an
environment object. -/
def envSet (env : List (String × String)) (key value : String) :
    List (String × String) :=
  (key, value) :: env.filter (fun p => p.1 ≠ key)

/-- The host environment after sandboxed code assigns through the
injected `process.env`: a live object writes through to the host, a
snapshot leaves the host untouched. -/
def sandboxSetEnv (hostEnv : List (String × String)) (inj : InjectedEnv)
    (key value : String) : List (String × String) :=
  match inj with
  | InjectedEnv.live => envSet hostEnv key value
  | InjectedEnv.snapshot _ => hostEnv

/-- The log line `Failed to instantiate edge runtime.`. -/
def runtimeFailedLog : String :=
  "Failed to instantiate edge runtime."

/-- Embeds `createEdgeRuntime`.  The edge-runtime collaborator (wasm
`getContext`, `new EdgeRuntime`, `runServer`) is the `boot` parameter,
which receives the initial code and the extended context and either
throws or returns the started server.  Without a compiled program the
function returns `undefined` at once; a boot error is caught, logged
message-only, and converted to `none`. -/
def createEdgeRuntime
    (boot : String → EdgeContextModel → Except String SandboxServer)
    (params : Option CompiledProgram) : Option SandboxServer × List String :=
  match params with
  | none => (none, [])
  | some p =>
    match boot p.userCode (extendContext p.wasmAssets.bindings) with
    | Except.ok server => (some server, [])
    | Except.error e => (none, [runtimeFailedLog, e])

/-! ## Request proxy -/

/-- node-fetch redirect modes. -/
inductive RedirectMode where
  | follow
  | manual
  deriving Repr, DecidableEq

/-- The options record of a node-fetch call. -/
structure FetchOptions where
  redirect : RedirectMode
  method : String
  deriving Repr, DecidableEq

/-- The options the event handler passes to `fetch`: `redirect:
'manual'`, `method: 'post'`. -/
def handleFetchOptions : FetchOptions :=
  { redirect := RedirectMode.manual, method := "post" }

/-- node-fetch against the sandbox server.  In `follow` mode a redirect
response would be chased through the `follower` collaborator; in
`manual` mode the server's response is returned untouched. -/
def fetchModel (opts : FetchOptions) (server : SandboxServer)
    (follower : WireResponse → WireResponse)
    (payload : SerializedRequest) : WireResponse :=
  let r := server.respond payload
  match opts.redirect with
  | RedirectMode.manual => r
  | RedirectMode.follow =>
    if 300 ≤ r.status ∧ r.status < 400 then follower r else r

/-- The reserved failure-signal header name. -/
def failureHeaderName : String := "x-vercel-failed"

/-- The failure-signal header value marking a user-code fault inside the
edge wrapper. -/
def failureHeaderValue : String := "edge-wrapper"

/-- Embeds the closure returned by `createEdgeEventHandler`.
`textDecode` is the collaborator decoding response-body bytes to text
(`response.text()`, UTF-8).  The result pairs the `console.log` lines
with either `Except.error 1` — modelling `process.exit(1)` — or the
returned `ProxyResponse`. -/
def handleRequest (textDecode : List Nat → String)
    (server : Option SandboxServer)
    (follower : WireResponse → WireResponse)
    (entrypointRelativePath : String)
    (request : IncomingRequest) : List String × Except Nat ProxyResponse :=
  match server with
  | none => ([], Except.error 1)
  | some s =>
    let response :=
      fetchModel handleFetchOptions s follower (serializeRequest request)
    let body := textDecode response.bodyBytes
    if headersGet response.headers failureHeaderName = some failureHeaderValue
        ∧ 500 ≤ response.status then
      let fakeStackTrace := "    at (" ++ entrypointRelativePath ++ ")"
      let urlPath := extractUrlPath entrypointRelativePath
      (["Error from API Route " ++ urlPath ++ ": " ++ body ++ "\n" ++
          fakeStackTrace],
       Except.error 1)
    else
      ([], Except.ok
        { statusCode := response.status
          headers := response.headers
          body := body
          encoding := "utf8" })

/-- Embeds `createEdgeEventHandler`: compile, start the runtime on the
compile result, and return the request-handling closure together with
the lines logged during setup. -/
def createEdgeEventHandler
    (bundler : BuildOptions → Except String (List String × WasmAssets))
    (boot : String → EdgeContextModel → Except String SandboxServer)
    (textDecode : List Nat → String)
    (follower : WireResponse → WireResponse)
    (nodeVersionIdentifier template : String)
    (entrypointFullPath entrypointRelativePath : String)
    (isMiddleware : Bool) :
    (IncomingRequest → List String × Except Nat ProxyResponse) × List String :=
  let compiled :=
    compileUserCode bundler nodeVersionIdentifier template
      entrypointFullPath entrypointRelativePath isMiddleware
  let started := createEdgeRuntime boot compiled.1
  (fun request =>
      handleRequest textDecode started.1 follower entrypointRelativePath
        request,
   compiled.2 ++ started.2)

/-- The echo sandbox of the round-trip property: it decodes the
payload's base64 body and returns the bytes as a status-200 response. -/
def echoServer : SandboxServer :=
  { respond := fun payload =>
      { status := 200
        headers := []
        bodyBytes := (base64Decode payload.body).getD [] } }

/-! ## Facts about route-label derivation -/

theorem splitOnDot_ne_nil (cs : List Char) : splitOnDot cs ≠ [] := by
  cases cs with
  | nil => simp [splitOnDot]
  | cons c rest =>
    simp only [splitOnDot]
    split
    · simp
    · cases h : splitOnDot rest <;> simp

theorem splitOnDot_no_dot (cs : List Char) (h : '.' ∉ cs) :
    splitOnDot cs = [cs] := by
  induction cs with
  | nil => rfl
  | cons c rest ih =>
    have hc : ¬c = '.' := fun hc => h (hc ▸ List.mem_cons_self c rest)
    have hrest : '.' ∉ rest := fun hr => h (List.mem_cons_of_mem c hr)
    simp only [splitOnDot, if_neg hc, ih hrest]

theorem splitOnDot_append (xs ys : List Char) (h : '.' ∉ ys) :
    splitOnDot (xs ++ '.' :: ys) = splitOnDot xs ++ [ys] := by
  induction xs with
  | nil =>
    simp [splitOnDot, splitOnDot_no_dot ys h]
  | cons c xs ih =>
    have hcons : (c :: xs) ++ '.' :: ys = c :: (xs ++ '.' :: ys) := rfl
    rw [hcons]
    simp only [splitOnDot]
    rw [ih]
    by_cases hc : c = '.'
    · simp [hc]
    · simp only [if_neg hc]
      cases hx : splitOnDot xs with
      | nil => exact absurd hx (splitOnDot_ne_nil xs)
      | cons g gs => simp [hx]

theorem joinDot_splitOnDot (cs : List Char) :
    joinDot (splitOnDot cs) = cs := by
  induction cs with
  | nil => rfl
  | cons c rest ih =>
    simp only [splitOnDot]
    by_cases hc : c = '.'
    · subst hc
      simp only [if_pos rfl]
      cases hr : splitOnDot rest with
      | nil => exact absurd hr (splitOnDot_ne_nil rest)
      | cons g gs =>
        rw [hr] at ih
        simp only [joinDot] at ih
        simp [joinDot, joinDotPre, ih]
    · simp only [if_neg hc]
      cases hr : splitOnDot rest with
      | nil => exact absurd hr (splitOnDot_ne_nil rest)
      | cons g gs =>
        rw [hr] at ih
        simp only [joinDot] at ih ⊢
        cases gs with
        | nil => simpa [joinDotPre] using ih
        | cons g2 gs2 => simpa [joinDotPre] using ih

theorem intercalate_go_mk (gs : List (List Char)) :
    ∀ acc : String, String.intercalate.go acc "." (gs.map String.mk) =
      String.mk (acc.data ++ joinDotPre gs) := by
  induction gs with
  | nil =>
    intro acc
    cases acc
    simp [String.intercalate.go, joinDotPre]
  | cons g gs ih =>
    intro acc
    simp only [List.map_cons, String.intercalate.go, ih, joinDotPre]
    apply congrArg
    have hdot : (acc ++ "." ++ String.mk g).data = acc.data ++ '.' :: g := by
      simp [String.data_append]
    rw [hdot]
    simp

theorem intercalate_mk (gs : List (List Char)) :
    String.intercalate "." (gs.map String.mk) = String.mk (joinDot gs) := by
  cases gs with
  | nil => rfl
  | cons g gs =>
    simp only [List.map_cons, String.intercalate, intercalate_go_mk, joinDot]

/-- C5: route-label derivation is a pure function that strips the final
dot-delimited suffix and returns the path unchanged when there is no
such suffix; `api/some.func.js` maps to `api/some.func`, `api/plain` to
`api/plain`, and `a.b.c` to `a.b`. -/
theorem extractUrlPath_spec :
    (∀ p : String, '.' ∉ p.data → extractUrlPath p = p) ∧
    (∀ a b : String, '.' ∉ b.data → extractUrlPath (a ++ "." ++ b) = a) ∧
    extractUrlPath "api/some.func.js" = "api/some.func" ∧
    extractUrlPath "api/plain" = "api/plain" ∧
    extractUrlPath "a.b.c" = "a.b" := by
  refine ⟨?_, ?_, by decide, by decide, by decide⟩
  · intro p hp
    have h1 : splitOnDot p.data = [p.data] := splitOnDot_no_dot p.data hp
    simp [extractUrlPath, h1]
  · intro a b hb
    have hdata : (a ++ "." ++ b).data = a.data ++ '.' :: b.data := by
      simp [String.data_append]
    have hsplit : splitOnDot (a ++ "." ++ b).data =
        splitOnDot a.data ++ [b.data] := by
      rw [hdata]
      exact splitOnDot_append a.data b.data hb
    have hnil := splitOnDot_ne_nil a.data
    unfold extractUrlPath
    rw [hsplit]
    simp only [List.map_append, List.map_cons, List.map_nil]
    have hlen : ((List.map String.mk (splitOnDot a.data) ++
        [String.mk b.data]).length == 1) = false := by
      cases hx : splitOnDot a.data with
      | nil => exact absurd hx hnil
      | cons g gs => simp
    simp only [hlen, Bool.false_eq_true, if_false, List.dropLast_concat]
    rw [intercalate_mk, joinDot_splitOnDot]

/-- Witness for `extractUrlPath_spec` at concrete inputs. -/
theorem extractUrlPath_spec_witness :
    extractUrlPath "api/plain" = "api/plain" ∧
    extractUrlPath ("a.b" ++ "." ++ "c") = "a.b" :=
  ⟨extractUrlPath_spec.1 "api/plain" (by decide),
   extractUrlPath_spec.2.1 "a.b" "c" (by decide)⟩

/-! ## Facts about base64 -/

theorem charSextet_sextetChar : ∀ n : Nat, n < 64 →
    charSextet (sextetChar n) = some n := by
  decide

theorem sextetChar_ne_pad : ∀ n : Nat, n < 64 → sextetChar n ≠ '=' := by
  decide

theorem decodeChunks_encodeChunks :
    ∀ bs : List Nat, (∀ b ∈ bs, b < 256) →
      decodeChunks (encodeChunks bs) = some bs
  | [], _ => rfl
  | [b0], h => by
    have hb0 : b0 < 256 := h b0 (by simp)
    have h0 : b0 / 4 < 64 := by omega
    have h1 : b0 % 4 * 16 < 64 := by omega
    simp [encodeChunks, decodeChunks, charSextet_sextetChar _ h0,
      charSextet_sextetChar _ h1]
    omega
  | [b0, b1], h => by
    have hb0 : b0 < 256 := h b0 (by simp)
    have hb1 : b1 < 256 := h b1 (by simp)
    have h0 : b0 / 4 < 64 := by omega
    have h1 : b0 % 4 * 16 + b1 / 16 < 64 := by omega
    have h2 : b1 % 16 * 4 < 64 := by omega
    have hne : sextetChar (b1 % 16 * 4) ≠ '=' := sextetChar_ne_pad _ h2
    simp [encodeChunks, decodeChunks, hne, charSextet_sextetChar _ h0,
      charSextet_sextetChar _ h1, charSextet_sextetChar _ h2]
    omega
  | b0 :: b1 :: b2 :: rest, h => by
    have hb0 : b0 < 256 := h b0 (by simp)
    have hb1 : b1 < 256 := h b1 (by simp)
    have hb2 : b2 < 256 := h b2 (by simp)
    have h0 : b0 / 4 < 64 := by omega
    have h1 : b0 % 4 * 16 + b1 / 16 < 64 := by omega
    have h2 : b1 % 16 * 4 + b2 / 64 < 64 := by omega
    have h3 : b2 % 64 < 64 := by omega
    have ih := decodeChunks_encodeChunks rest
      (fun b hb => h b (by simp [hb]))
    have hne2 : sextetChar (b1 % 16 * 4 + b2 / 64) ≠ '=' :=
      sextetChar_ne_pad _ h2
    have hne3 : sextetChar (b2 % 64) ≠ '=' := sextetChar_ne_pad _ h3
    simp [encodeChunks, decodeChunks, hne2, hne3, ih,
      charSextet_sextetChar _ h0, charSextet_sextetChar _ h1,
      charSextet_sextetChar _ h2, charSextet_sextetChar _ h3]
    omega

theorem base64Decode_base64Encode (bs : List Nat) (h : ∀ b ∈ bs, b < 256) :
    base64Decode (base64Encode bs) = some bs := by
  unfold base64Decode base64Encode
  exact decodeChunks_encodeChunks bs h

/-- C4: the serialized sandbox payload carries the request's url, method
and headers verbatim and a base64-encoded body; against a sandbox that
echoes the decoded body with status 200, the handler returns status 200,
the body read back as text, and encoding `utf8`. -/
theorem request_roundtrip (textDecode : List Nat → String)
    (follower : WireResponse → WireResponse)
    (relPath : String) (req : IncomingRequest)
    (h : ∀ b ∈ req.bodyBytes, b < 256) :
    (serializeRequest req).body = base64Encode req.bodyBytes ∧
    (serializeRequest req).url = req.url ∧
    (serializeRequest req).method = req.method ∧
    (serializeRequest req).headers = req.headers ∧
    handleRequest textDecode (some echoServer) follower relPath req =
      ([], Except.ok
        { statusCode := 200
          headers := []
          body := textDecode req.bodyBytes
          encoding := "utf8" }) := by
  refine ⟨rfl, rfl, rfl, rfl, ?_⟩
  have hdec : base64Decode (serializeRequest req).body = some req.bodyBytes :=
    base64Decode_base64Encode req.bodyBytes h
  simp [handleRequest, fetchModel, handleFetchOptions, echoServer, hdec,
    headersGet, failureHeaderName, failureHeaderValue]

/-- Witness for `request_roundtrip` at a concrete request. -/
theorem request_roundtrip_witness :
    handleRequest (fun bs => String.mk (bs.map Char.ofNat))
        (some echoServer) id "api/x.js"
        ⟨"/api", "POST", [("a", "b")], [104, 105, 33]⟩ =
      ([], Except.ok
        { statusCode := 200
          headers := []
          body := String.mk ([104, 105, 33].map Char.ofNat)
          encoding := "utf8" }) :=
  (request_roundtrip (fun bs => String.mk (bs.map Char.ofNat)) id "api/x.js"
    ⟨"/api", "POST", [("a", "b")], [104, 105, 33]⟩ (by decide)).2.2.2.2

/-- C1: a sandbox response carrying the failure-signal header with a 5xx
status makes the handler log one line — route label, body text, and a
synthesized single-frame stack trace naming the relative path — and exit
with code 1; the same header with a status below 500 is not fatal and a
normal `ProxyResponse` is returned. -/
theorem fatal_error_escalation (textDecode : List Nat → String)
    (s : SandboxServer) (follower : WireResponse → WireResponse)
    (relPath : String) (req : IncomingRequest) :
    (headersGet (s.respond (serializeRequest req)).headers failureHeaderName
        = some failureHeaderValue →
      500 ≤ (s.respond (serializeRequest req)).status →
      handleRequest textDecode (some s) follower relPath req =
        (["Error from API Route " ++ extractUrlPath relPath ++ ": " ++
            textDecode (s.respond (serializeRequest req)).bodyBytes ++ "\n" ++
            ("    at (" ++ relPath ++ ")")], Except.error 1)) ∧
    (headersGet (s.respond (serializeRequest req)).headers failureHeaderName
        = some failureHeaderValue →
      (s.respond (serializeRequest req)).status < 500 →
      handleRequest textDecode (some s) follower relPath req =
        ([], Except.ok
          { statusCode := (s.respond (serializeRequest req)).status
            headers := (s.respond (serializeRequest req)).headers
            body := textDecode (s.respond (serializeRequest req)).bodyBytes
            encoding := "utf8" })) := by
  constructor
  · intro hh hs
    simp [handleRequest, fetchModel, handleFetchOptions, hh, hs]
  · intro hh hs
    have hlt : ¬ 500 ≤ (s.respond (serializeRequest req)).status := by omega
    simp [handleRequest, fetchModel, handleFetchOptions, hh, hlt]

/-- Witness for `fatal_error_escalation`: a concrete 500 response with
the failure header is fatal, a concrete 200 response with the same
header is not. -/
theorem fatal_error_escalation_witness :
    (handleRequest (fun _ => "boom")
        (some { respond := fun _ =>
          { status := 500
            headers := [("x-vercel-failed", ["edge-wrapper"])]
            bodyBytes := [] } })
        id "api/some.func.js" ⟨"/", "GET", [], []⟩ =
      (["Error from API Route " ++ extractUrlPath "api/some.func.js" ++
          ": " ++ "boom" ++ "\n" ++ ("    at (" ++ "api/some.func.js" ++ ")")],
        Except.error 1)) ∧
    (handleRequest (fun _ => "fine")
        (some { respond := fun _ =>
          { status := 200
            headers := [("x-vercel-failed", ["edge-wrapper"])]
            bodyBytes := [] } })
        id "api/some.func.js" ⟨"/", "GET", [], []⟩ =
      ([], Except.ok
        { statusCode := 200
          headers := [("x-vercel-failed", ["edge-wrapper"])]
          body := "fine"
          encoding := "utf8" })) :=
  ⟨(fatal_error_escalation (fun _ => "boom")
      { respond := fun _ =>
        { status := 500
          headers := [("x-vercel-failed", ["edge-wrapper"])]
          bodyBytes := [] } }
      id "api/some.func.js" ⟨"/", "GET", [], []⟩).1 (by decide) (by decide),
   (fatal_error_escalation (fun _ => "fine")
      { respond := fun _ =>
        { status := 200
          headers := [("x-vercel-failed", ["edge-wrapper"])]
          bodyBytes := [] } }
      id "api/some.func.js" ⟨"/", "GET", [], []⟩).2 (by decide) (by decide)⟩

/-- C6: every sandbox response that is not a fatal user error — failure
header plus 5xx — is passed through verbatim: status, raw multi-value
headers, full body as text, encoding `utf8`, with nothing logged. -/
theorem response_passthrough (textDecode : List Nat → String)
    (s : SandboxServer) (follower : WireResponse → WireResponse)
    (relPath : String) (req : IncomingRequest)
    (h : ¬(headersGet (s.respond (serializeRequest req)).headers
          failureHeaderName = some failureHeaderValue ∧
        500 ≤ (s.respond (serializeRequest req)).status)) :
    handleRequest textDecode (some s) follower relPath req =
      ([], Except.ok
        { statusCode := (s.respond (serializeRequest req)).status
          headers := (s.respond (serializeRequest req)).headers
          body := textDecode (s.respond (serializeRequest req)).bodyBytes
          encoding := "utf8" }) := by
  simp only [handleRequest, fetchModel, handleFetchOptions]
  rw [if_neg h]

/-- Witness for `response_passthrough`: a 404 carrying the failure
header is passed through, not treated as fatal. -/
theorem response_passthrough_witness :
    handleRequest (fun _ => "missing")
        (some { respond := fun _ =>
          { status := 404
            headers := [("x-vercel-failed", ["edge-wrapper"])]
            bodyBytes := [] } })
        id "api/a.js" ⟨"/", "GET", [], []⟩ =
      ([], Except.ok
        { statusCode := 404
          headers := [("x-vercel-failed", ["edge-wrapper"])]
          body := "missing"
          encoding := "utf8" }) :=
  response_passthrough (fun _ => "missing")
    { respond := fun _ =>
      { status := 404
        headers := [("x-vercel-failed", ["edge-wrapper"])]
        bodyBytes := [] } }
    id "api/a.js" ⟨"/", "GET", [], []⟩ (by decide)

/-- C8: the proxy's POST uses `redirect: 'manual'`; the handler's result
never depends on any redirect-following behavior, and every 3xx sandbox
response surfaces with its status code and headers verbatim. -/
theorem redirect_never_followed :
    handleFetchOptions.redirect = RedirectMode.manual ∧
    (∀ (textDecode : List Nat → String) (s : SandboxServer)
        (f1 f2 : WireResponse → WireResponse) (relPath : String)
        (req : IncomingRequest),
      handleRequest textDecode (some s) f1 relPath req =
        handleRequest textDecode (some s) f2 relPath req) ∧
    (∀ (textDecode : List Nat → String) (s : SandboxServer)
        (follower : WireResponse → WireResponse) (relPath : String)
        (req : IncomingRequest),
      300 ≤ (s.respond (serializeRequest req)).status →
      (s.respond (serializeRequest req)).status < 400 →
      handleRequest textDecode (some s) follower relPath req =
        ([], Except.ok
          { statusCode := (s.respond (serializeRequest req)).status
            headers := (s.respond (serializeRequest req)).headers
            body := textDecode (s.respond (serializeRequest req)).bodyBytes
            encoding := "utf8" })) := by
  refine ⟨rfl, ?_, ?_⟩
  · intro textDecode s f1 f2 relPath req
    simp [handleRequest, fetchModel, handleFetchOptions]
  · intro textDecode s follower relPath req h3 h4
    have hlt : ¬ 500 ≤ (s.respond (serializeRequest req)).status := by omega
    simp [handleRequest, fetchModel, handleFetchOptions, hlt]

/-- Witness for `redirect_never_followed`: a concrete 302 with a
`location` header surfaces verbatim. -/
theorem redirect_never_followed_witness :
    handleRequest (fun _ => "")
        (some { respond := fun _ =>
          { status := 302
            headers := [("location", ["https://example.com/"])]
            bodyBytes := [] } })
        id "api/a.js" ⟨"/", "GET", [], []⟩ =
      ([], Except.ok
        { statusCode := 302
          headers := [("location", ["https://example.com/"])]
          body := ""
          encoding := "utf8" }) :=
  redirect_never_followed.2.2 (fun _ => "")
    { respond := fun _ =>
      { status := 302
        headers := [("location", ["https://example.com/"])]
        bodyBytes := [] } }
    id "api/a.js" ⟨"/", "GET", [], []⟩ (by decide) (by decide)

/-- C3: for every successful bundle, the compiled script is the
strict-mode prologue, the bundle text, the `IS_MIDDLEWARE` and
`ENTRYPOINT_LABEL` constant declarations carrying the supplied flag and
relative path, and the fixed harness template. -/
theorem compile_script_shape
    (bundler : BuildOptions → Except String (List String × WasmAssets))
    (ident template fp rp : String) (mw : Bool)
    (text : String) (rest : List String) (assets : WasmAssets)
    (h : bundler (buildOptionsFor ident fp) =
      Except.ok (text :: rest, assets)) :
    compileUserCode bundler ident template fp rp mw =
      (some { userCode := scriptSeg1 ++ text ++ scriptSeg2 ++
                boolLiteral mw ++ scriptSeg3 ++ rp ++ scriptSeg4 ++
                template ++ scriptSeg5
              wasmAssets := assets }, []) := by
  simp [compileUserCode, h, wrapUserCode]

/-- Witness for `compile_script_shape` at a concrete bundler output. -/
theorem compile_script_shape_witness :
    compileUserCode (fun _ => Except.ok (["BUNDLE"], ⟨[]⟩)) "node18" "HARNESS"
        "/app/api/f.js" "api/f.js" true =
      (some { userCode := scriptSeg1 ++ "BUNDLE" ++ scriptSeg2 ++
                boolLiteral true ++ scriptSeg3 ++ "api/f.js" ++ scriptSeg4 ++
                "HARNESS" ++ scriptSeg5
              wasmAssets := ⟨[]⟩ }, []) :=
  compile_script_shape (fun _ => Except.ok (["BUNDLE"], ⟨[]⟩)) "node18"
    "HARNESS" "/app/api/f.js" "api/f.js" true "BUNDLE" [] ⟨[]⟩ rfl

/-- C7: `compileUserCode` is total with respect to build errors: a
bundler throw is caught and logged message-only, and a bundle with no
output files raises the compilation-failure message carrying the
relative path, likewise caught; both produce an absent program. -/
theorem compile_total_on_errors
    (bundler : BuildOptions → Except String (List String × WasmAssets))
    (ident template fp rp : String) (mw : Bool) :
    (∀ e, bundler (buildOptionsFor ident fp) = Except.error e →
      compileUserCode bundler ident template fp rp mw =
        (none, [compileFailedLog, e])) ∧
    (∀ assets, bundler (buildOptionsFor ident fp) = Except.ok ([], assets) →
      compileUserCode bundler ident template fp rp mw =
        (none, [compileFailedLog,
          "Compilation of " ++ rp ++ " produced no output files."])) := by
  constructor
  · intro e he
    simp [compileUserCode, he]
  · intro assets ha
    simp [compileUserCode, ha, noOutputMessage]

/-- Witness for `compile_total_on_errors`: a throwing bundler and a
bundler with empty output both yield an absent program with the logged
messages. -/
theorem compile_total_on_errors_witness :
    compileUserCode (fun _ => Except.error "boom") "node18" "HARNESS"
        "/app/api/f.js" "api/f.js" false =
      (none, [compileFailedLog, "boom"]) ∧
    compileUserCode (fun _ => Except.ok ([], ⟨[]⟩)) "node18" "HARNESS"
        "/app/api/f.js" "api/f.js" false =
      (none, [compileFailedLog,
        "Compilation of " ++ "api/f.js" ++ " produced no output files."]) :=
  ⟨(compile_total_on_errors (fun _ => Except.error "boom") "node18" "HARNESS"
      "/app/api/f.js" "api/f.js" false).1 "boom" rfl,
   (compile_total_on_errors (fun _ => Except.ok ([], ⟨[]⟩)) "node18" "HARNESS"
      "/app/api/f.js" "api/f.js" false).2 ⟨[]⟩ rfl⟩

/-- C2: when compilation fails, sandbox creation is not even attempted —
`createEdgeRuntime` returns no handle without consulting the boot
collaborator — handler creation itself completes normally (only the
compile-failure log lines are emitted, so the process does not exit
before a request), and the first and every request exits with code 1. -/
theorem compile_failure_fails_fast
    (bundler : BuildOptions → Except String (List String × WasmAssets))
    (boot : String → EdgeContextModel → Except String SandboxServer)
    (textDecode : List Nat → String) (follower : WireResponse → WireResponse)
    (ident template fp rp : String) (mw : Bool)
    (h : (compileUserCode bundler ident template fp rp mw).1 = none) :
    (∀ b : String → EdgeContextModel → Except String SandboxServer,
      createEdgeRuntime b
          (compileUserCode bundler ident template fp rp mw).1 =
        (none, [])) ∧
    (∀ req, (createEdgeEventHandler bundler boot textDecode follower ident
        template fp rp mw).1 req = ([], Except.error 1)) ∧
    (createEdgeEventHandler bundler boot textDecode follower ident template
        fp rp mw).2 =
      (compileUserCode bundler ident template fp rp mw).2 := by
  refine ⟨?_, ?_, ?_⟩
  · intro b
    rw [h]
    rfl
  · intro req
    simp [createEdgeEventHandler, createEdgeRuntime, h, handleRequest]
  · simp [createEdgeEventHandler, createEdgeRuntime, h]

/-- Witness for `compile_failure_fails_fast` with a concrete failing
bundler and a boot collaborator that would succeed if ever called. -/
theorem compile_failure_fails_fast_witness :
    (createEdgeEventHandler (fun _ => Except.error "boom")
        (fun _ _ => Except.ok { respond := fun _ =>
          { status := 200, headers := [], bodyBytes := [] } })
        (fun _ => "") id "node18" "HARNESS" "/app/api/f.js" "api/f.js"
        false).1 ⟨"/", "GET", [], []⟩ = ([], Except.error 1) :=
  ((compile_failure_fails_fast (fun _ => Except.error "boom")
      (fun _ _ => Except.ok { respond := fun _ =>
        { status := 200, headers := [], bodyBytes := [] } })
      (fun _ => "") id "node18" "HARNESS" "/app/api/f.js" "api/f.js"
      false rfl).2.1) ⟨"/", "GET", [], []⟩

/-- C10: when the running node's major version cannot be parsed from
`process.version`, module load fails before any handler exists;
otherwise the esbuild target is exactly `node<major>`, and every
compilation consults the bundler only at options carrying that target. -/
theorem node_version_gate (v : String) :
    (nodeVersionMajor v = none →
      nodeModuleInit v = Except.error
        ("Unable to determine current node version: process.version=" ++ v)) ∧
    (∀ m, nodeVersionMajor v = some m →
      nodeModuleInit v = Except.ok ("node" ++ m) ∧
      (∀ fp, (buildOptionsFor ("node" ++ m) fp).target = "node" ++ m) ∧
      (∀ (b1 b2 : BuildOptions → Except String (List String × WasmAssets))
          (template fp rp : String) (mw : Bool),
        b1 (buildOptionsFor ("node" ++ m) fp) =
          b2 (buildOptionsFor ("node" ++ m) fp) →
        compileUserCode b1 ("node" ++ m) template fp rp mw =
          compileUserCode b2 ("node" ++ m) template fp rp mw)) := by
  constructor
  · intro h
    simp [nodeModuleInit, h]
  · intro m hm
    refine ⟨by simp [nodeModuleInit, hm], fun fp => rfl, ?_⟩
    intro b1 b2 template fp rp mw heq
    unfold compileUserCode
    rw [heq]

/-- Witness for `node_version_gate`: a version without the `v` prefix
fails module load; `v18.12.1` yields the target `node18`. -/
theorem node_version_gate_witness :
    nodeModuleInit "18.2.0" = Except.error
      ("Unable to determine current node version: process.version=" ++
        "18.2.0") ∧
    nodeModuleInit "v18.12.1" = Except.ok ("node" ++ "18") :=
  ⟨(node_version_gate "18.2.0").1 (by decide),
   ((node_version_gate "v18.12.1").2 "18" (by decide)).1⟩

/-- C9 counterexample: the injected `process.env`-equivalent is the
host's live environment object, not an immutable snapshot taken at
sandbox start: two runs that differ only in a host-environment mutation
performed after sandbox start observe different environments through the
injected object, and a write from inside the sandbox changes the host
environment. -/
theorem env_snapshot_counterexample :
    observeEnv [] (extendContext []).processEnv ≠
      observeEnv [("A", "1")] (extendContext []).processEnv ∧
    sandboxSetEnv [] (extendContext []).processEnv "A" "1" ≠ [] := by
  decide

/-- C9 amended: the sandbox's injected `process.env`-equivalent exposes
the full host environment unfiltered, as a live reference: reads see the
host environment as of observation time, writes through the injected
object mutate the host environment, and only the spec-side snapshot
variant would isolate the two. -/
theorem env_live_passthrough (hostEnv w : List (String × String))
    (k v : String) :
    observeEnv hostEnv (extendContext w).processEnv = hostEnv ∧
    sandboxSetEnv hostEnv (extendContext w).processEnv k v =
      envSet hostEnv k v ∧
    (∀ e, observeEnv hostEnv
        (extendContextSpec e w).processEnv = e ∧
      sandboxSetEnv hostEnv (extendContextSpec e w).processEnv k v =
        hostEnv) :=
  ⟨rfl, rfl, fun _ => ⟨rfl, rfl⟩⟩
